import Mathlib

/-!
Verification of the vendor-metadata retrieval-and-cache layer
(`openlibrary/core/vendors.py`).

The embedding is shallow: each Python function of the source is translated
into an executable Lean definition.  Python `None` becomes `Option.none`,
Python exceptions become `Option.none` (for code whose failures we only
observe as "raised") or `Except.error` (for code whose callers catch
specific exception classes), Python dicts become ordered association lists
`List (String × Val)`, and Python truthiness of strings and lists is made
explicit.  The memcache-backed memoization helper `cache.memcache_memoize`,
the ISBN utilities and the affiliate-id configuration lookup are not part
of the source file; they are modelled from the spec where indicated.
-/

namespace Vendors

/-- Python truthiness of an optional string: `None` and the empty string
are falsy, every other string is truthy. -/
def pyTruthy : Option String → Bool
  | none => false
  | some s => !s.isEmpty

/-- Python truthiness of a plain string. -/
def pyTruthyS (s : String) : Bool := !s.isEmpty

/-- Parse a nonempty all-digit character list as a natural number;
`none` on an empty list or any non-digit character. -/
def digitsVal (cs : List Char) : Option Nat :=
  if cs.isEmpty then none
  else cs.foldl
    (fun acc c =>
      match acc with
      | none => none
      | some n => if c.isDigit then some (n * 10 + (c.toNat - 48)) else none)
    (some 0)

/-- Python `int(s)` on a string: an optional sign followed by digits;
`none` (a raise) otherwise. -/
def pyIntS (s : String) : Option Int :=
  match s.toList with
  | '-' :: rest => (digitsVal rest).map (fun n => -(n : Int))
  | '+' :: rest => (digitsVal rest).map (fun n => (n : Int))
  | cs => (digitsVal cs).map (fun n => (n : Int))

/-- Python `int(x)` applied to an optional string: `int(None)` and
`int("")` raise (modelled as `none`), otherwise the string is parsed as a
decimal integer, raising on a non-numeric string. -/
def pyInt (o : Option String) : Option Int := pyIntS (o.getD "")

/-- Code-point lexicographic order on character lists: the comparison
Python uses for `s < t` on strings. -/
def pyStrLtL : List Char → List Char → Bool
  | [], [] => false
  | [], _ :: _ => true
  | _ :: _, [] => false
  | a :: as, b :: bs => if a < b then true else if b < a then false else pyStrLtL as bs

/-- Python string comparison `a < b`. -/
def pyStrLt (a b : String) : Bool := pyStrLtL a.toList b.toList

/-- Python `s.startswith(pre)`. -/
def pyStartsWith (s pre : String) : Bool :=
  s.toList.take pre.toList.length == pre.toList

/-- Render a natural number below 100 with two digits, as Python's
`"%02d"`-style padding inside a float format does. -/
def twoDigits (n : Nat) : String := (if n < 10 then "0" else "") ++ toString n

/-- Insert a comma after every third character of a reversed digit list;
helper for the thousands separator of the Python float format. -/
def commaRev : List Char → List Char
  | a :: b :: c :: d :: rest => a :: b :: c :: ',' :: commaRev (d :: rest)
  | l => l

/-- Insert thousands separators into a decimal digit string. -/
def withCommas (s : String) : String :=
  ((commaRev s.toList.reverse).reverse).asString

/-- The serializer's price formatting: a cents amount is divided by 100
and rendered with a thousands separator and exactly two decimals, the
sign preceding the grouped absolute value. -/
def formatCents (cents : Int) : String :=
  let n := cents.natAbs
  (if cents < 0 then "-" else "") ++ withCommas (toString (n / 100)) ++ "." ++ twoDigits (n % 100)

/-- A vendor publication date, as exposed by the product object. -/
structure PDate where
  year : Int
  month : Nat
  day : Nat
deriving DecidableEq, Repr

/-- Month abbreviation used by `strftime` with the `%b` directive. -/
def monthAbbr (m : Nat) : String :=
  (["Jan", "Feb", "Mar", "Apr", "May", "Jun",
    "Jul", "Aug", "Sep", "Oct", "Nov", "Dec"]).getD (m - 1) "Jan"

/-- `strftime` with the pattern used by the serializer for publish dates:
abbreviated month, zero-padded day, comma, year. -/
def strftimeBDY (d : PDate) : String :=
  monthAbbr d.month ++ " " ++ twoDigits d.day ++ ", " ++ toString d.year

/-- Values stored in the serialized metadata mapping.  `vnames xs` encodes
the Python list of one-key author dicts built from the names `xs`;
`vintMap` encodes a nested mapping from strings to integers (the offer
summary); `vstrs` encodes a list of strings. -/
inductive Val where
  | vnull : Val
  | vstr : String → Val
  | vint : Int → Val
  | vstrs : List String → Val
  | vnames : List String → Val
  | vintMap : List (String × Int) → Val
deriving DecidableEq, Repr

/-- An optional string rendered as a dict value: `None` becomes null. -/
def optStr : Option String → Val
  | none => Val.vnull
  | some s => Val.vstr s

/-- An optional integer rendered as a dict value: `None` becomes null. -/
def optInt : Option Int → Val
  | none => Val.vnull
  | some n => Val.vint n

/-- A serialized metadata mapping: an ordered association list mirroring a
Python dict in insertion order. -/
abbrev AMeta := List (String × Val)

/-- The raw Amazon product object handed to the serializer.  Fields read
through `_safe_get_element_text` are optional strings (`none` when the
element is missing from the response); `offerSummaryPresent` records
whether `_safe_get_element('OfferSummary')` is non-`None`. -/
structure AmazonProduct where
  asin : String
  title : String
  authors : List String
  pages : Option Int
  languages : List String
  large_image_url : Option String
  product_group : Option String
  offerSummaryPresent : Bool
  lowestUsedPrice : Option String
  lowestNewPrice : Option String
  lowestCollectiblePrice : Option String
  totalNew : Option String
  totalUsed : Option String
  totalCollectible : Option String
  totalOffers : Option String
  publication_date : Option PDate
  binding : Option String
  edition : Option String
  publisher : Option String
  isbn : Option String
deriving DecidableEq, Repr

/-- Modelled from the spec: `h.affiliate_id` reads the vendor-assigned
affiliate/tracking tag from configuration; it is modelled as an abstract
tag derived from the vendor name. -/
def affiliate_id (vendor : String) : String := vendor ++ "-tag"

/-- Modelled from the spec: `openlibrary.utils.isbn.isbn_10_to_isbn_13`
prefixes the first nine digits with 978 and recomputes the ISBN-13 check
digit. -/
def isbn_10_to_isbn_13 (s : String) : String :=
  let core := "978" ++ (s.toList.take 9).asString
  let sum := core.toList.enum.foldl
    (fun acc p => acc + (p.2.toNat - 48) * (if p.1 % 2 = 0 then 1 else 3)) (0 : Nat)
  core ++ toString ((10 - sum % 10) % 10)

/-- Modelled from the spec: `openlibrary.utils.isbn.isbn_13_to_isbn_10`
drops the 978 prefix and recomputes the ISBN-10 check digit (X for ten). -/
def isbn_13_to_isbn_10 (s : String) : String :=
  let core := (s.toList.drop 3).take 9
  let sum := core.enum.foldl (fun acc p => acc + (p.2.toNat - 48) * (10 - p.1)) (0 : Nat)
  let r := (11 - sum % 11) % 11
  core.asString ++ (if r = 10 then "X" else toString r)

/-- Modelled from the spec: `openlibrary.utils.isbn.normalize_isbn`
canonicalizes an ISBN spelling by upper-casing and removing hyphens and
spaces, returning `None` unless the result has 10 or 13 characters. -/
def normalize_isbn (s : String) : Option String :=
  let t := ((s.toList.map Char.toUpper).filter (fun c => c != '-' && c != ' ')).asString
  if t.length = 10 || t.length = 13 then some t else none

/-- The price-selection logic of `_serialize_amazon_product` (source lines
66-75): with both the used and the new amount truthy, parse both as
integers (raising, hence `none`, on a non-numeric amount) and keep the
strictly smaller one, the new amount winning ties; with exactly one truthy
amount keep that one; otherwise no price and no quality tag. -/
def amazonPriceSelect (used new : Option String) :
    Option (Option String × Option String) :=
  if pyTruthy used && pyTruthy new then
    match pyInt used, pyInt new with
    | some iu, some inew =>
        some (if iu < inew then (used, some "used") else (new, some "new"))
    | _, _ => none
  else if pyTruthy used || pyTruthy new then
    some (if pyTruthy used then (used, some "used") else (new, some "new"))
  else
    some (none, none)

/-- The price/price_amt/qlt triple produced by `_serialize_amazon_product`
(source lines 66-80): after selection, a truthy chosen price string is
parsed as a cents amount (raising on a non-numeric string) and replaced by
its display formatting, and the `price_fmt` banner combines it with the
quality tag. -/
def priceFields (used new : Option String) :
    Option (Option String × Option String × Option String) := do
  let sel ← amazonPriceSelect used new
  if pyTruthy sel.1 then
    let c ← pyInt sel.1
    let pformatted := formatCents c
    let price_fmt :=
      if pyTruthy sel.2 then
        some ("$" ++ pformatted ++ " (" ++ sel.2.getD "" ++ ")")
      else none
    pure (price_fmt, some pformatted, sel.2)
  else
    pure (none, none, sel.2)

/-- An optional integer entry of the offer summary: when the raw text is
truthy it is converted with `int` (raising, hence `none`, when
non-numeric), otherwise no entry is added. -/
def optIntSeg (key : String) (o : Option String) : Option (List (String × Int)) :=
  if pyTruthy o then (pyInt o).map (fun n => [(key, n)]) else some []

/-- The offer-summary segment of the serialized mapping (source lines
96-111): present exactly when the raw response has an OfferSummary
element, in which case the three total counts are converted with `int`
unconditionally (raising when missing or non-numeric) and the lowest
amounts and the Amazon offer count are added only when truthy. -/
def offerSummarySeg (p : AmazonProduct) : Option (List (String × Val)) :=
  if p.offerSummaryPresent then do
    let tn ← pyInt p.totalNew
    let tu ← pyInt p.totalUsed
    let tc ← pyInt p.totalCollectible
    let lnew ← optIntSeg "lowest_new" p.lowestNewPrice
    let lused ← optIntSeg "lowest_used" p.lowestUsedPrice
    let lcoll ← optIntSeg "lowest_collectible" p.lowestCollectiblePrice
    let aoff ← optIntSeg "amazon_offers" p.totalOffers
    pure [("offer_summary",
      Val.vintMap ([("total_new", tn), ("total_used", tu), ("total_collectible", tc)]
        ++ lnew ++ lused ++ lcoll ++ aoff))]
  else
    pure []

/-- The publish-date segment (source lines 113-116). -/
def dateSeg (p : AmazonProduct) : List (String × Val) :=
  match p.publication_date with
  | some d =>
      [("publish_date",
        Val.vstr (if d.year > 1900 then strftimeBDY d else toString d.year))]
  | none => []

/-- The physical-format segment (source lines 117-118). -/
def bindingSeg (p : AmazonProduct) : List (String × Val) :=
  if pyTruthy p.binding then
    [("physical_format",
      Val.vstr (((p.binding.getD "").toList.map Char.toLower).asString))]
  else []

/-- The edition segment (source lines 119-120). -/
def editionSeg (p : AmazonProduct) : List (String × Val) :=
  if pyTruthy p.edition then [("edition", Val.vstr (p.edition.getD ""))] else []

/-- The publishers segment (source lines 121-122). -/
def publisherSeg (p : AmazonProduct) : List (String × Val) :=
  if pyTruthy p.publisher then
    [("publishers", Val.vstrs [p.publisher.getD ""])]
  else []

/-- The ISBN segment (source lines 123-131): a 10-character ISBN also
derives an ISBN-13, a 13-character ISBN derives an ISBN-10 only when it
starts with 978. -/
def isbnSeg (p : AmazonProduct) : List (String × Val) :=
  if pyTruthy p.isbn then
    if (p.isbn.getD "").length = 10 then
      [("isbn_10", Val.vstrs [p.isbn.getD ""]),
       ("isbn_13", Val.vstrs [isbn_10_to_isbn_13 (p.isbn.getD "")])]
    else if (p.isbn.getD "").length = 13 then
      [("isbn_13", Val.vstrs [p.isbn.getD ""])] ++
        (if pyStartsWith (p.isbn.getD "") "978" then
          [("isbn_10", Val.vstrs [isbn_13_to_isbn_10 (p.isbn.getD "")])]
        else [])
    else []
  else []

/-- The unconditional part of the serialized mapping (source lines
82-95), given the computed price triple. -/
def amazonBase (p : AmazonProduct)
    (pf : Option String × Option String × Option String) : List (String × Val) :=
  [("url", Val.vstr ("https://www.amazon.com/dp/" ++ p.asin ++ "/?tag=" ++
      affiliate_id "amazon")),
   ("price", optStr pf.1),
   ("price_amt", optStr pf.2.1),
   ("qlt", optStr pf.2.2),
   ("title", Val.vstr p.title),
   ("authors", Val.vnames p.authors),
   ("source_records", Val.vstrs ["amazon:" ++ p.asin]),
   ("number_of_pages", optInt p.pages),
   ("languages", Val.vstrs p.languages),
   ("cover", optStr p.large_image_url),
   ("product_group", optStr p.product_group)]

/-- `_serialize_amazon_product` (source lines 57-132): the normalizer
mapping a raw Amazon product to the serialized metadata mapping, `none`
when the Python code would raise. -/
def _serialize_amazon_product (p : AmazonProduct) : Option AMeta := do
  let pf ← priceFields p.lowestUsedPrice p.lowestNewPrice
  let os ← offerSummarySeg p
  pure (amazonBase p pf ++ os ++ dateSeg p ++ bindingSeg p ++ editionSeg p ++
    publisherSeg p ++ isbnSeg p)

/-- Python exceptions distinguished by the catch clauses of this layer:
`amazon.api.SearchException` versus every other exception class. -/
inductive PyExc where
  | searchException
  | otherException
deriving DecidableEq, Repr

/-- The guard `used_qty and used_qty[0] and used_qty[0] != '0'` of
`_get_betterworldbooks_metadata`: the list is nonempty, its first element
is a truthy string, and that string is not the literal "0". -/
def qtyGate (l : List String) : Bool :=
  match l.head? with
  | some s => !s.isEmpty && s != "0"
  | none => false

/-- The price-selection logic of `_get_betterworldbooks_metadata` (source
lines 286-296), ported exactly as written: the used branch takes the first
used price (or the empty string when the used-price list is empty); the
new branch reads `used_price[0]` — not the new price — into `_price` and
replaces the choice only when `_price` compares lexicographically below
the current price. -/
def bwbPriceSelect (used_qty new_qty used_price new_price : List String) :
    Option String × Option String :=
  let pq : Option String × Option String :=
    if qtyGate used_qty then
      (some (match used_price.head? with | some s => s | none => ""), some "used")
    else (none, none)
  if qtyGate new_qty then
    let _price : Option String := used_price.head?
    if pyTruthy pq.1 && pyTruthy _price && pyStrLt (_price.getD "") (pq.1.getD "") then
      (_price, some "new")
    else pq
  else pq

/-- The outcome of the HTTP exchange inside
`_get_betterworldbooks_metadata`, after the regex field extraction which
we take as the embedding boundary: a readable response with its extracted
field lists (in the order the source extracts them), or an HTTPError
whose body parses as JSON, or an HTTPError whose body does not. -/
inductive BwbOutcome where
  | response (product_url new_qty new_price used_price used_qty : List String)
  | httpErrorJson (payload : List (String × Val))
  | httpErrorBadBody
deriving DecidableEq, Repr

/-- The affiliate-tagged BetterWorldBooks product link (source lines
302-305). -/
def bwbUrl (isbn : String) : String :=
  "http://www.anrdoezrs.net/links/" ++ affiliate_id "betterworldbooks" ++
    "/type/dlg/http://www.betterworldbooks.com/-id-" ++ isbn ++ ".aspx"

/-- `_get_betterworldbooks_metadata` (source lines 265-315): on a readable
response, select a price and build the metadata dict; on an HTTPError, a
JSON body is parsed and returned as an ordinary value, while a non-JSON
body raises `simplejson.decoder.JSONDecodeError`, which this function does
not catch. -/
def _get_betterworldbooks_metadata (isbn : String) (o : BwbOutcome) :
    Except PyExc AMeta :=
  match o with
  | BwbOutcome.response _purl nq np up uq =>
      let pq := bwbPriceSelect uq nq up np
      let price_fmt :=
        if pyTruthy pq.1 && pyTruthy pq.2 then
          some ("$" ++ pq.1.getD "" ++ " (" ++ pq.2.getD "" ++ ")")
        else none
      Except.ok
        [("url", Val.vstr (bwbUrl isbn)),
         ("price", optStr price_fmt),
         ("price_amt", optStr pq.1),
         ("qlt", optStr pq.2)]
  | BwbOutcome.httpErrorJson payload => Except.ok payload
  | BwbOutcome.httpErrorBadBody => Except.error PyExc.otherException

/-- `get_betterworldbooks_metadata` (source lines 249-262): normalize the
ISBN, return `None` when normalization yields nothing truthy, convert any
exception of the inner fetch into the empty dict. -/
def get_betterworldbooks_metadata (isbn : String) (o : String → BwbOutcome) :
    Option AMeta :=
  match normalize_isbn isbn with
  | none => none
  | some s =>
      if pyTruthyS s then
        match _get_betterworldbooks_metadata s (o s) with
        | Except.ok d => some d
        | Except.error _ => some []
      else none

/-- Modelled from the spec: timeout of the primary-vendor cache namespace
(`dateutil.WEEK_SECS`, about one week). -/
def WEEK_SECS : Nat := 7 * 24 * 60 * 60

/-- Modelled from the spec: timeout of the secondary-vendor cache
namespace (`dateutil.HALF_DAY_SECS`, about twelve hours). -/
def HALF_DAY_SECS : Nat := 12 * 60 * 60

/-- Modelled from the spec: the state of one `cache.memcache_memoize`
controller — a store mapping a key (the argument tuple) to the value last
computed for it together with the time it was stored, plus a count of how
many times the underlying fetch function has been invoked.  The count is
the observable used to state the re-fetch properties. -/
structure MemoState (K V : Type) where
  store : List (K × V × Nat)
  count : Nat
deriving DecidableEq, Repr

/-- The empty memoization state. -/
def emptyMemo {K V : Type} : MemoState K V := { store := [], count := 0 }

/-- Modelled from the spec: a cache read — the most recent entry for the
key, unless it has passed its TTL. -/
def memoLookup {K V : Type} [BEq K] (timeout : Nat) (st : MemoState K V)
    (key : K) (now : Nat) : Option V :=
  match st.store.lookup key with
  | some (v, t) => if now < t + timeout then some v else none
  | none => none

/-- Modelled from the spec: the `.update` operation of a memoize
controller — invoke the underlying fetch function and store whatever it
returns (including the null sentinel); an exception propagates and stores
nothing.  The fetch function is indexed by the invocation count so that
scenarios can make successive fetches behave differently. -/
def memoUpdate {K V : Type} (fetch : Nat → Except PyExc V) (key : K)
    (now : Nat) (st : MemoState K V) : Except PyExc V × MemoState K V :=
  match fetch st.count with
  | Except.ok v =>
      (Except.ok v, { store := (key, v, now) :: st.store, count := st.count + 1 })
  | Except.error e => (Except.error e, { st with count := st.count + 1 })

/-- Modelled from the spec: calling a memoize controller — return the
stored value when the key has a fresh entry, otherwise fetch and store. -/
def memoCall {K V : Type} [BEq K] (timeout : Nat) (fetch : Nat → Except PyExc V)
    (key : K) (now : Nat) (st : MemoState K V) : Except PyExc V × MemoState K V :=
  match memoLookup timeout st key now with
  | some v => (Except.ok v, st)
  | none => memoUpdate fetch key now st

/-- The cache key of the Amazon memoize controller: the raw argument
tuple `(id_, id_type)` as passed to `cached_get_amazon_metadata`. -/
abbrev AmazonKey := String × String

/-- `cached_get_amazon_metadata` (source lines 225-246): read the
week-long memoize controller for `_get_amazon_metadata`; when the value
obtained is `None`, call `.update` to re-invoke the fetch and return its
fresh result. -/
def cached_get_amazon_metadata (fetch : Nat → Except PyExc (Option AMeta))
    (key : AmazonKey) (now : Nat) (st : MemoState AmazonKey (Option AMeta)) :
    Except PyExc (Option AMeta) × MemoState AmazonKey (Option AMeta) :=
  match memoCall WEEK_SECS fetch key now st with
  | (Except.ok none, st1) => memoUpdate fetch key now st1
  | r => r

/-- `cached_get_betterworldbooks_metadata` (source lines 318-319): the
bare half-day memoize controller over `_get_betterworldbooks_metadata`,
with no null-recheck wrapper. -/
def cached_get_betterworldbooks_metadata (fetch : Nat → Except PyExc AMeta)
    (key : String) (now : Nat) (st : MemoState String AMeta) :
    Except PyExc AMeta × MemoState String AMeta :=
  memoCall HALF_DAY_SECS fetch key now st

/-- `_get_amazon_metadata` (source lines 135-162): for an ISBN lookup the
identifier is first normalized (possibly to `None`); the API lookup and
the first-of-list selection sit inside a catch-all returning `None`, while
the serialization of the chosen product happens outside it, so a
serializer crash escapes this function. -/
def _get_amazon_metadata (api : Option String → Except PyExc (List AmazonProduct))
    (id_ : String) (id_type : String) : Except PyExc (Option AMeta) :=
  let itemId : Option String :=
    if id_type = "isbn" then normalize_isbn id_ else some id_
  match api itemId with
  | Except.error _ => Except.ok none
  | Except.ok [] => Except.ok none
  | Except.ok (p :: _) =>
      match _serialize_amazon_product p with
      | some d => Except.ok (some d)
      | none => Except.error PyExc.otherException

/-- `get_amazon_metadata` (source lines 19-33): guard on a truthy
identifier, delegate to the cached fetch keyed by the raw argument tuple,
and convert any exception into `None`. -/
def get_amazon_metadata (api : Option String → Except PyExc (List AmazonProduct))
    (id_ : String) (id_type : String) (now : Nat)
    (st : MemoState AmazonKey (Option AMeta)) :
    Option AMeta × MemoState AmazonKey (Option AMeta) :=
  if pyTruthyS id_ then
    match cached_get_amazon_metadata
        (fun _ => _get_amazon_metadata api id_ id_type) (id_, id_type) now st with
    | (Except.ok v, st1) => (v, st1)
    | (Except.error _, st1) => (none, st1)
  else (none, st)

/-- Serialize every product of a search result in order; `none` when the
serializer raises on one of them. -/
def serializeAll : List AmazonProduct → Option (List AMeta)
  | [] => some []
  | p :: ps => do
      let d ← _serialize_amazon_product p
      let ds ← serializeAll ps
      pure (d :: ds)

/-- The value returned by the search path: either the results mapping or
the structured error payload. -/
inductive SearchData where
  | results : List AMeta → SearchData
  | errorPayload : String → SearchData
deriving DecidableEq, Repr

/-- `search_amazon` (source lines 36-54): iterate the vendor search
result serializing each product; `SearchException` surfacing during the
iteration is converted into the payload with error "no results", while
any other exception — from the fetch or from the serializer — leaves the
function uncaught. -/
def search_amazon (res : Except PyExc (List AmazonProduct)) :
    Except PyExc SearchData :=
  match res with
  | Except.error PyExc.searchException =>
      Except.ok (SearchData.errorPayload "no results")
  | Except.error e => Except.error e
  | Except.ok ps =>
      match serializeAll ps with
      | some ds => Except.ok (SearchData.results ds)
      | none => Except.error PyExc.otherException

/-- The observable of two consecutive `cached_get_amazon_metadata` calls
with the same key starting from the empty cache: both results and both
invocation counts. -/
def cachedAmazonTwice (fetch : Nat → Except PyExc (Option AMeta))
    (key : AmazonKey) (now1 now2 : Nat) :
    Except PyExc (Option AMeta) × Except PyExc (Option AMeta) × Nat × Nat :=
  let r1 := cached_get_amazon_metadata fetch key now1 emptyMemo
  let r2 := cached_get_amazon_metadata fetch key now2 r1.2
  (r1.1, r2.1, r1.2.count, r2.2.count)

/-- The observable of two consecutive `cached_get_betterworldbooks_metadata`
calls with the same key starting from the empty cache. -/
def cachedBwbTwice (fetch : Nat → Except PyExc AMeta) (key : String)
    (now1 now2 : Nat) :
    Except PyExc AMeta × Except PyExc AMeta × Nat × Nat :=
  let r1 := cached_get_betterworldbooks_metadata fetch key now1 emptyMemo
  let r2 := cached_get_betterworldbooks_metadata fetch key now2 r1.2
  (r1.1, r2.1, r1.2.count, r2.2.count)

/-- The observable of two `get_amazon_metadata` calls with two identifier
spellings starting from the empty cache: both results and the total
number of underlying fetch invocations. -/
def amazonTwoLookups (api : Option String → Except PyExc (List AmazonProduct))
    (id1 id2 : String) (now1 now2 : Nat) :
    Option AMeta × Option AMeta × Nat :=
  let r1 := get_amazon_metadata api id1 "isbn" now1 emptyMemo
  let r2 := get_amazon_metadata api id2 "isbn" now2 r1.2
  (r1.1, r2.1, r2.2.count)

/-- A minimal raw Amazon product: a title and an ASIN, every optional
field absent.  Concrete scenarios below start from this record. -/
def baseProduct : AmazonProduct :=
  { asin := "B000", title := "Foo", authors := [], pages := none,
    languages := [], large_image_url := none, product_group := none,
    offerSummaryPresent := false, lowestUsedPrice := none,
    lowestNewPrice := none, lowestCollectiblePrice := none,
    totalNew := none, totalUsed := none, totalCollectible := none,
    totalOffers := none, publication_date := none, binding := none,
    edition := none, publisher := none, isbn := none }

/-- A raw Amazon product whose offer summary reports zero copies in every
tier while its used-price field is populated. -/
def zeroQtyProduct : AmazonProduct :=
  { baseProduct with
      offerSummaryPresent := true,
      totalNew := some "0",
      totalUsed := some "0",
      totalCollectible := some "0",
      lowestUsedPrice := some "999" }

/-- A raw Amazon product with a used offer of 1234 cents and no other
price data. -/
def usedPriceProduct : AmazonProduct :=
  { baseProduct with lowestUsedPrice := some "1234" }

/-- A vendor API behavior that knows the canonical spelling 0140328726
and returns the base product for it, nothing for anything else. -/
def c9api : Option String → Except PyExc (List AmazonProduct) :=
  fun o => if o = some "0140328726" then Except.ok [baseProduct] else Except.ok []

/-- Two lookups of the same book through `get_amazon_metadata`, under two
ISBN spellings that normalize identically, one second apart. -/
def c9run : Option AMeta × Option AMeta × Nat :=
  amazonTwoLookups c9api "0-14-032872-6" "0140328726" 0 1

/-! ## Helper lemmas -/

theorem pyStrLtL_irrefl (l : List Char) : pyStrLtL l l = false := by
  induction l with
  | nil => rfl
  | cons a as ih => simp [pyStrLtL, ih]

theorem pyStrLt_irrefl (s : String) : pyStrLt s s = false := pyStrLtL_irrefl s.toList

theorem amazonBase_lookup_price (p : AmazonProduct)
    (pf : Option String × Option String × Option String) :
    (amazonBase p pf).lookup "price" = some (optStr pf.1) := rfl

theorem amazonBase_lookup_price_amt (p : AmazonProduct)
    (pf : Option String × Option String × Option String) :
    (amazonBase p pf).lookup "price_amt" = some (optStr pf.2.1) := rfl

theorem amazonBase_lookup_qlt (p : AmazonProduct)
    (pf : Option String × Option String × Option String) :
    (amazonBase p pf).lookup "qlt" = some (optStr pf.2.2) := rfl

theorem amazonBase_lookup_pages (p : AmazonProduct)
    (pf : Option String × Option String × Option String) :
    (amazonBase p pf).lookup "number_of_pages" = some (optInt p.pages) := rfl

theorem amazonBase_lookup_cover (p : AmazonProduct)
    (pf : Option String × Option String × Option String) :
    (amazonBase p pf).lookup "cover" = some (optStr p.large_image_url) := rfl

theorem amazonBase_lookup_product_group (p : AmazonProduct)
    (pf : Option String × Option String × Option String) :
    (amazonBase p pf).lookup "product_group" = some (optStr p.product_group) := rfl

theorem pyTruthy_some (s : String) : pyTruthy (some s) = pyTruthyS s := rfl

theorem bwb_response_eq (isbn : String) (purl nq np up uq : List String) :
    _get_betterworldbooks_metadata isbn (BwbOutcome.response purl nq np up uq) =
      Except.ok
        [("url", Val.vstr (bwbUrl isbn)),
         ("price", optStr
           (if pyTruthy (bwbPriceSelect uq nq up np).1 &&
               pyTruthy (bwbPriceSelect uq nq up np).2 then
             some ("$" ++ (bwbPriceSelect uq nq up np).1.getD "" ++ " (" ++
               (bwbPriceSelect uq nq up np).2.getD "" ++ ")")
           else none)),
         ("price_amt", optStr (bwbPriceSelect uq nq up np).1),
         ("qlt", optStr (bwbPriceSelect uq nq up np).2)] := rfl

theorem amazonPriceSelect_chosen (u n : Option String) (pr q : String)
    (h : amazonPriceSelect u n = some (some pr, some q)) :
    pyTruthyS pr = true ∧ (q = "used" ∨ q = "new") := by
  unfold amazonPriceSelect at h
  by_cases h1 : (pyTruthy u && pyTruthy n) = true
  · rw [if_pos h1] at h
    obtain ⟨hu, hn⟩ : pyTruthy u = true ∧ pyTruthy n = true := by
      simpa using h1
    cases hpu : pyInt u <;> cases hpn : pyInt n <;> rw [hpu, hpn] at h
    · simp at h
    · simp at h
    · simp at h
    · simp only [Option.some.injEq] at h
      split at h <;>
        rw [Prod.mk.injEq] at h <;>
        obtain ⟨hpr, hq⟩ := h
      · rw [hpr] at hu
        exact ⟨hu, Or.inl (Option.some.inj hq.symm)⟩
      · rw [hpr] at hn
        exact ⟨hn, Or.inr (Option.some.inj hq.symm)⟩
  · rw [if_neg h1] at h
    by_cases h2 : (pyTruthy u || pyTruthy n) = true
    · rw [if_pos h2] at h
      simp only [Option.some.injEq] at h
      split at h <;>
        rw [Prod.mk.injEq] at h <;>
        obtain ⟨hpr, hq⟩ := h
      · next hu =>
          rw [hpr] at hu
          exact ⟨hu, Or.inl (Option.some.inj hq.symm)⟩
      · next hu =>
          have hn : pyTruthy n = true := by
            have h3 : pyTruthy u = true ∨ pyTruthy n = true := by
              simpa using h2
            rcases h3 with h3 | h3
            · exact absurd h3 hu
            · exact h3
          rw [hpr] at hn
          exact ⟨hn, Or.inr (Option.some.inj hq.symm)⟩
    · rw [if_neg h2] at h
      simp at h

theorem amazonBase_keys (p : AmazonProduct)
    (pf : Option String × Option String × Option String) :
    (amazonBase p pf).map Prod.fst =
      ["url", "price", "price_amt", "qlt", "title", "authors",
       "source_records", "number_of_pages", "languages", "cover",
       "product_group"] := rfl

theorem lookup_eq_none_of_keys (l : List (String × Val)) (k : String)
    (h : ∀ k2, k2 ∈ l.map Prod.fst → k ≠ k2) : l.lookup k = none := by
  induction l with
  | nil => rfl
  | cons hd t ih =>
      have hne : k ≠ hd.1 := h hd.1 (by simp)
      have : (k == hd.1) = false := beq_eq_false_iff_ne.mpr hne
      simp only [List.lookup, this]
      exact ih (fun k2 hk2 => h k2 (by simp [hk2]))

theorem offerSummarySeg_keys (p : AmazonProduct) (os : List (String × Val))
    (h : offerSummarySeg p = some os) (k : String)
    (hk : k ≠ "offer_summary") : os.lookup k = none := by
  unfold offerSummarySeg at h
  by_cases hp : p.offerSummaryPresent = true
  · rw [if_pos hp] at h
    simp only [Option.bind_eq_some, Option.some.injEq, bind] at h
    obtain ⟨tn, _, tu, _, tc, _, l1, _, l2, _, l3, _, l4, _, hos⟩ := h
    have hos2 := Option.some.inj hos
    subst hos2
    simp [List.lookup, beq_eq_false_iff_ne.mpr hk]
  · rw [if_neg hp] at h
    cases h
    rfl

theorem dateSeg_keys (p : AmazonProduct) (k : String)
    (hk : k ≠ "publish_date") : (dateSeg p).lookup k = none := by
  unfold dateSeg
  cases p.publication_date
  · rfl
  · simp [List.lookup, beq_eq_false_iff_ne.mpr hk]

theorem bindingSeg_keys (p : AmazonProduct) (k : String)
    (hk : k ≠ "physical_format") : (bindingSeg p).lookup k = none := by
  unfold bindingSeg
  split
  · simp [List.lookup, beq_eq_false_iff_ne.mpr hk]
  · rfl

theorem editionSeg_keys (p : AmazonProduct) (k : String)
    (hk : k ≠ "edition") : (editionSeg p).lookup k = none := by
  unfold editionSeg
  split
  · simp [List.lookup, beq_eq_false_iff_ne.mpr hk]
  · rfl

theorem publisherSeg_keys (p : AmazonProduct) (k : String)
    (hk : k ≠ "publishers") : (publisherSeg p).lookup k = none := by
  unfold publisherSeg
  split
  · simp [List.lookup, beq_eq_false_iff_ne.mpr hk]
  · rfl

theorem isbnSeg_keys (p : AmazonProduct) (k : String)
    (hk10 : k ≠ "isbn_10") (hk13 : k ≠ "isbn_13") :
    (isbnSeg p).lookup k = none := by
  unfold isbnSeg
  split
  · split
    · simp [List.lookup, beq_eq_false_iff_ne.mpr hk10,
        beq_eq_false_iff_ne.mpr hk13]
    · split
      · split <;>
          simp [List.lookup, beq_eq_false_iff_ne.mpr hk10,
            beq_eq_false_iff_ne.mpr hk13]
      · rfl
  · rfl

theorem lookup_append (k : String) (l1 l2 : List (String × Val)) :
    (l1 ++ l2).lookup k = (l1.lookup k).or (l2.lookup k) := by
  induction l1 with
  | nil => simp [List.lookup]
  | cons h t ih =>
      cases hkb : k == h.1 <;> simp [List.lookup, hkb, ih]

/-! ## Claims -/

/-- C1: if the underlying fetch returns the null sentinel, the null is not
durably cached — a second `cached_get_amazon_metadata` call with the same
key re-invokes the fetch (the invocation count grows from 2 to 3) — while
a fetch returning a structurally valid-but-empty metadata value has that
value cached, and a second call with the same key before TTL expiry is
served from the cache without re-invoking the fetch (the count stays 1). -/
theorem amazon_cache_null_refetch_and_empty_cached
    (fetchA fetchB : Nat → Except PyExc (Option AMeta)) (v : AMeta)
    (key : AmazonKey) (now1 now2 : Nat)
    (hA : ∀ n, fetchA n = Except.ok none)
    (hB : ∀ n, fetchB n = Except.ok (some v))
    (ht : now2 < now1 + WEEK_SECS) :
    cachedAmazonTwice fetchA key now1 now2 =
      (Except.ok none, Except.ok none, 2, 3) ∧
    cachedAmazonTwice fetchB key now1 now2 =
      (Except.ok (some v), Except.ok (some v), 1, 1) := by
  constructor
  · simp [cachedAmazonTwice, cached_get_amazon_metadata, memoCall, memoLookup,
      memoUpdate, emptyMemo, hA, List.lookup, ht]
  · simp [cachedAmazonTwice, cached_get_amazon_metadata, memoCall, memoLookup,
      memoUpdate, emptyMemo, hB, List.lookup, ht]

/-- Witness for C1 at a concrete key, fetch pair and times; the empty
metadata value is the mapping with a null price. -/
theorem amazon_cache_null_refetch_and_empty_cached_witness :
    cachedAmazonTwice (fun _ => Except.ok none) ("0140328726", "isbn") 0 1 =
      (Except.ok none, Except.ok none, 2, 3) ∧
    cachedAmazonTwice (fun _ => Except.ok (some [("price", Val.vnull)]))
        ("0140328726", "isbn") 0 1 =
      (Except.ok (some [("price", Val.vnull)]),
       Except.ok (some [("price", Val.vnull)]), 1, 1) :=
  amazon_cache_null_refetch_and_empty_cached
    (fun _ => Except.ok none)
    (fun _ => Except.ok (some [("price", Val.vnull)]))
    [("price", Val.vnull)] ("0140328726", "isbn") 0 1
    (fun _ => rfl) (fun _ => rfl) (by decide)

/-- C3 (code bug): at a BetterWorldBooks response with one used copy at
9.99 and one new copy at 5.00, the selector keeps the used price — its
new-offer branch reads the used price into `_price` and compares it with
itself, so the numerically smaller new price can never be chosen — and
the resulting metadata carries price_amt 9.99 with tier "used" instead of
the claimed 5.00 with tier "new". -/
theorem bwb_price_selector_at_failing_input :
    bwbPriceSelect ["1"] ["1"] ["9.99"] ["5.00"] = (some "9.99", some "used") ∧
    _get_betterworldbooks_metadata "0140328726"
        (BwbOutcome.response [] ["1"] ["5.00"] ["9.99"] ["1"]) =
      Except.ok
        [("url", Val.vstr (bwbUrl "0140328726")),
         ("price", Val.vstr "$9.99 (used)"),
         ("price_amt", Val.vstr "9.99"),
         ("qlt", Val.vstr "used")] ∧
    (some "9.99", (some "used" : Option String)) ≠ (some "5.00", some "new") := by
  refine ⟨by decide, rfl, by decide⟩

/-- C4 counterexample: with the used and the new amount both present and
numerically equal (500 cents each), the Amazon price selector returns the
"new" tier, not the claimed "used" tier. -/
theorem amazon_tie_breaks_to_new_cex :
    amazonPriceSelect (some "500") (some "500") = some (some "500", some "new") ∧
    (some "new" : Option String) ≠ some "used" := by
  refine ⟨by decide, by decide⟩

/-- C4 as amended: whenever the used and the new amount are both present
(truthy) and parse to the same integer, the Amazon price selector returns
the new amount with the "new" tier. -/
theorem amazon_tie_breaks_to_new (used new : String) (u : Int)
    (hu : pyTruthyS used = true) (hn : pyTruthyS new = true)
    (hup : pyIntS used = some u) (hnp : pyIntS new = some u) :
    amazonPriceSelect (some used) (some new) = some (some new, some "new") := by
  simp [amazonPriceSelect, pyTruthy, pyTruthyS] at hu hn ⊢
  simp [hu, hn, pyInt, hup, hnp]

/-- Witness for the amended C4 at the concrete pair (500, 500). -/
theorem amazon_tie_breaks_to_new_witness :
    amazonPriceSelect (some "500") (some "500") = some (some "500", some "new") :=
  amazon_tie_breaks_to_new "500" "500" 500 (by decide) (by decide)
    (by decide) (by decide)

/-- C2 counterexample: a BetterWorldBooks fetch failing with a vendor
error status yields the parsed error payload as an ordinary value, which
the bare memoize controller stores; the next access with the same key
within the TTL is served the cached error value, with no fresh fetch (the
invocation count stays at 1). -/
theorem bwb_error_dict_is_cached_cex :
    cachedBwbTwice
        (fun _ => _get_betterworldbooks_metadata "0140328726"
          (BwbOutcome.httpErrorJson
            [("error", Val.vstr "Service Unavailable"), ("code", Val.vint 503)]))
        "0140328726" 0 1 =
      (Except.ok [("error", Val.vstr "Service Unavailable"), ("code", Val.vint 503)],
       Except.ok [("error", Val.vstr "Service Unavailable"), ("code", Val.vint 503)],
       1, 1) := rfl

/-- C2 as amended: on the Amazon path a throttled fetch yields the null
sentinel and every subsequent access re-invokes the fetch instead of
trusting the stored null; on the BetterWorldBooks path the memoize
controller stores whatever value the fetch returns — including an error
dict parsed from a vendor error status — and a subsequent access within
the TTL is served that stored value without any fresh fetch. -/
theorem throttled_fetch_amazon_refetch_bwb_cached
    (fetchA : Nat → Except PyExc (Option AMeta))
    (fetchB : Nat → Except PyExc AMeta) (v : AMeta)
    (keyA : AmazonKey) (keyB : String) (now1 now2 : Nat)
    (hA : ∀ n, fetchA n = Except.ok none)
    (hB : fetchB 0 = Except.ok v)
    (htA : now2 < now1 + WEEK_SECS) (htB : now2 < now1 + HALF_DAY_SECS) :
    cachedAmazonTwice fetchA keyA now1 now2 =
      (Except.ok none, Except.ok none, 2, 3) ∧
    cachedBwbTwice fetchB keyB now1 now2 = (Except.ok v, Except.ok v, 1, 1) := by
  constructor
  · simp [cachedAmazonTwice, cached_get_amazon_metadata, memoCall, memoLookup,
      memoUpdate, emptyMemo, hA, List.lookup, htA]
  · simp [cachedBwbTwice, cached_get_betterworldbooks_metadata, memoCall,
      memoLookup, memoUpdate, emptyMemo, hB, List.lookup, htB]

/-- Witness for the amended C2: the stored BetterWorldBooks value is the
concrete error payload of a 503, served again on the second access. -/
theorem throttled_fetch_amazon_refetch_bwb_cached_witness :
    cachedAmazonTwice (fun _ => Except.ok none) ("0451526538", "isbn") 0 2 =
      (Except.ok none, Except.ok none, 2, 3) ∧
    cachedBwbTwice
        (fun _ => Except.ok [("error", Val.vstr "upstream 503"), ("code", Val.vint 503)])
        "0451526538" 0 2 =
      (Except.ok [("error", Val.vstr "upstream 503"), ("code", Val.vint 503)],
       Except.ok [("error", Val.vstr "upstream 503"), ("code", Val.vint 503)], 1, 1) :=
  throttled_fetch_amazon_refetch_bwb_cached
    (fun _ => Except.ok none)
    (fun _ => Except.ok [("error", Val.vstr "upstream 503"), ("code", Val.vint 503)])
    [("error", Val.vstr "upstream 503"), ("code", Val.vint 503)]
    ("0451526538", "isbn") "0451526538" 0 2
    (fun _ => rfl) rfl (by decide) (by decide)

/-- C5 counterexample: for a product whose raw used amount is the cents
string "1234", the serializer emits price_amt "12.34" — the display
formatting of the amount, not the raw numeric amount — so no separately
retained raw amount exists for callers to compare. -/
theorem amazon_price_amt_is_formatted_cex :
    usedPriceProduct.lowestUsedPrice = some "1234" ∧
    (((_serialize_amazon_product usedPriceProduct).getD []).lookup
      "price_amt") = some (Val.vstr "12.34") ∧
    ("12.34" : String) ≠ "1234" := ⟨rfl, rfl, by decide⟩

/-- C6 counterexample: the Amazon serializer never consults the quantity
counts when picking the headline price — a product whose offer summary
reports zero used copies but whose used-price field is populated still
gets the used tier selected. -/
theorem amazon_selects_zero_qty_tier_cex :
    zeroQtyProduct.totalUsed = some "0" ∧
    (((_serialize_amazon_product zeroQtyProduct).getD []).lookup "qlt") =
      some (Val.vstr "used") := ⟨rfl, rfl⟩

/-- C6 as amended: the BetterWorldBooks selector never selects a tier
whose quantity is "0" — a zero used quantity disables the used tier, and
the new tier is never selected at all — while the Amazon selector ignores
quantity counts entirely. -/
theorem bwb_zero_qty_never_selected (uq nq up np : List String) :
    (uq.head? = some "0" → (bwbPriceSelect uq nq up np).2 ≠ some "used") ∧
    (bwbPriceSelect uq nq up np).2 ≠ some "new" := by
  constructor
  · intro h0
    have hg : qtyGate uq = false := by simp [qtyGate, h0]
    unfold bwbPriceSelect
    rw [hg]
    simp only [if_false, Bool.false_eq_true]
    cases hng : qtyGate nq <;> simp [pyTruthy]
  · unfold bwbPriceSelect
    cases hng : qtyGate nq
    · cases hug : qtyGate uq <;> simp
    · cases hug : qtyGate uq <;> cases up <;> simp [pyTruthy, pyStrLt_irrefl]

/-- Witness for the amended C6 at a response with zero used quantity, a
populated used price and one new copy. -/
theorem bwb_zero_qty_never_selected_witness :
    (bwbPriceSelect ["0"] ["1"] ["5.00"] []).2 ≠ some "used" :=
  (bwb_zero_qty_never_selected ["0"] ["1"] ["5.00"] []).1 rfl

/-- C5 as amended: whenever the Amazon serializer chooses a price — the
selector having returned a chosen amount string and its tier, whatever
pair of tiers it came from — the price field holds the display banner
built from the two-decimal comma-grouped formatting of the amount, and
price_amt holds that same formatted display string rather than the raw
cents amount; on the BetterWorldBooks path the price field is the banner
built from the raw matched price string (not necessarily two-decimal)
and price_amt holds that raw string. -/
theorem price_display_and_amt
    (p : AmazonProduct) (pr q : String) (c : Int) (data : AMeta)
    (hsel : amazonPriceSelect p.lowestUsedPrice p.lowestNewPrice =
      some (some pr, some q))
    (hc : pyIntS pr = some c)
    (hd : _serialize_amazon_product p = some data)
    (isbn : String) (purl nq np up uq : List String) (pr2 q2 : String)
    (data2 : AMeta)
    (hsel2 : bwbPriceSelect uq nq up np = (some pr2, some q2))
    (hpt2 : pyTruthyS pr2 = true) (hqt2 : pyTruthyS q2 = true)
    (hd2 : _get_betterworldbooks_metadata isbn
      (BwbOutcome.response purl nq np up uq) = Except.ok data2) :
    (data.lookup "price" =
        some (Val.vstr ("$" ++ formatCents c ++ " (" ++ q ++ ")")) ∧
      data.lookup "price_amt" = some (Val.vstr (formatCents c)) ∧
      data.lookup "qlt" = some (Val.vstr q)) ∧
    (data2.lookup "price" =
        some (Val.vstr ("$" ++ pr2 ++ " (" ++ q2 ++ ")")) ∧
      data2.lookup "price_amt" = some (Val.vstr pr2) ∧
      data2.lookup "qlt" = some (Val.vstr q2)) := by
  constructor
  · obtain ⟨hpt, hq⟩ := amazonPriceSelect_chosen _ _ _ _ hsel
    have hqt : pyTruthy (some q) = true := by
      rcases hq with rfl | rfl <;> decide
    have hpf : priceFields p.lowestUsedPrice p.lowestNewPrice =
        some (some ("$" ++ formatCents c ++ " (" ++ q ++ ")"),
          some (formatCents c), some q) := by
      unfold priceFields
      rw [hsel]
      simp [pyTruthy_some, hpt, hqt, pyInt, hc]
    simp only [_serialize_amazon_product, hpf, Option.pure_def,
      Option.bind_eq_some, Option.some.injEq, bind] at hd
    obtain ⟨pf0, hpf0, os, hos, hdata⟩ := hd
    subst hpf0
    subst hdata
    simp [lookup_append, amazonBase_lookup_price, amazonBase_lookup_price_amt,
      amazonBase_lookup_qlt, optStr, Option.or_some]
  · rw [bwb_response_eq, hsel2] at hd2
    simp only [pyTruthy_some, hpt2, hqt2, Bool.and_self,
      Option.getD_some, Except.ok.injEq, optStr, if_true] at hd2
    subst hd2
    refine ⟨rfl, rfl, rfl⟩

/-- Witness for the amended C5: the Amazon product with a used offer of
1234 cents gets price_amt "12.34" (the formatted string), and a
BetterWorldBooks response whose selected used price is the raw string
"7.50" gets price_amt "7.50" with banner "$7.50 (used)". -/
theorem price_display_and_amt_witness :
    (((_serialize_amazon_product usedPriceProduct).getD []).lookup "price" =
        some (Val.vstr ("$" ++ formatCents 1234 ++ " (" ++ "used" ++ ")")) ∧
      ((_serialize_amazon_product usedPriceProduct).getD []).lookup "price_amt" =
        some (Val.vstr (formatCents 1234)) ∧
      ((_serialize_amazon_product usedPriceProduct).getD []).lookup "qlt" =
        some (Val.vstr "used")) ∧
    (([("url", Val.vstr (bwbUrl "0140328726")),
        ("price", Val.vstr "$7.50 (used)"),
        ("price_amt", Val.vstr "7.50"),
        ("qlt", Val.vstr "used")] : AMeta).lookup "price" =
        some (Val.vstr ("$" ++ "7.50" ++ " (" ++ "used" ++ ")")) ∧
      ([("url", Val.vstr (bwbUrl "0140328726")),
        ("price", Val.vstr "$7.50 (used)"),
        ("price_amt", Val.vstr "7.50"),
        ("qlt", Val.vstr "used")] : AMeta).lookup "price_amt" =
        some (Val.vstr "7.50") ∧
      ([("url", Val.vstr (bwbUrl "0140328726")),
        ("price", Val.vstr "$7.50 (used)"),
        ("price_amt", Val.vstr "7.50"),
        ("qlt", Val.vstr "used")] : AMeta).lookup "qlt" =
        some (Val.vstr "used")) :=
  price_display_and_amt usedPriceProduct "1234" "used" 1234
    ((_serialize_amazon_product usedPriceProduct).getD [])
    rfl rfl rfl
    "0140328726" [] ["1"] ["3.00"] ["7.50"] ["1"] "7.50" "used"
    [("url", Val.vstr (bwbUrl "0140328726")),
     ("price", Val.vstr "$7.50 (used)"),
     ("price_amt", Val.vstr "7.50"),
     ("qlt", Val.vstr "used")]
    rfl (by decide) (by decide) rfl

/-- C7 counterexample: for a product carrying no price data, the
serialized mapping still contains the "price", "price_amt" and "qlt" keys
with a null value (and likewise "number_of_pages" and "cover"), instead
of omitting the absent optional attributes. -/
theorem amazon_null_keys_present_cex :
    ((_serialize_amazon_product baseProduct).getD []).lookup "price" =
      some Val.vnull ∧
    ((_serialize_amazon_product baseProduct).getD []).lookup "qlt" =
      some Val.vnull ∧
    ((_serialize_amazon_product baseProduct).getD []).lookup "number_of_pages" =
      some Val.vnull := ⟨rfl, rfl, rfl⟩

/-- C7 as amended: the trailing optional attributes (publish date,
physical format, edition, publishers, isbn lists, offer summary) are
genuinely omitted from the mapping when absent, but the fixed head of
the mapping — price, price_amt, qlt, number_of_pages, cover and
product_group — is always present, carrying null when the underlying
datum is absent. -/
theorem amazon_optional_key_omission (p : AmazonProduct) (data : AMeta)
    (hd : _serialize_amazon_product p = some data) :
    (data.lookup "price").isSome = true ∧
    (data.lookup "price_amt").isSome = true ∧
    (data.lookup "qlt").isSome = true ∧
    (data.lookup "number_of_pages").isSome = true ∧
    (data.lookup "cover").isSome = true ∧
    (data.lookup "product_group").isSome = true ∧
    (pyTruthy p.binding = false → data.lookup "physical_format" = none) ∧
    (pyTruthy p.edition = false → data.lookup "edition" = none) ∧
    (pyTruthy p.publisher = false → data.lookup "publishers" = none) ∧
    (p.publication_date = none → data.lookup "publish_date" = none) ∧
    (p.offerSummaryPresent = false → data.lookup "offer_summary" = none) ∧
    (pyTruthy p.isbn = false →
      data.lookup "isbn_10" = none ∧ data.lookup "isbn_13" = none) := by
  simp only [_serialize_amazon_product, Option.pure_def, Option.bind_eq_some,
    Option.some.injEq, bind] at hd
  obtain ⟨pf, _, os, hos, hdata⟩ := hd
  subst hdata
  refine ⟨?_, ?_, ?_, ?_, ?_, ?_, ?_, ?_, ?_, ?_, ?_, ?_⟩
  · simp [lookup_append, amazonBase_lookup_price]
  · simp [lookup_append, amazonBase_lookup_price_amt]
  · simp [lookup_append, amazonBase_lookup_qlt]
  · simp [lookup_append, amazonBase_lookup_pages]
  · simp [lookup_append, amazonBase_lookup_cover]
  · simp [lookup_append, amazonBase_lookup_product_group]
  · intro hb
    have h1 : (amazonBase p pf).lookup "physical_format" = none := rfl
    have h2 := offerSummarySeg_keys p os hos "physical_format" (by decide)
    have h3 := dateSeg_keys p "physical_format" (by decide)
    have h4 : (bindingSeg p).lookup "physical_format" = none := by
      unfold bindingSeg; rw [hb]; rfl
    have h5 := editionSeg_keys p "physical_format" (by decide)
    have h6 := publisherSeg_keys p "physical_format" (by decide)
    have h7 := isbnSeg_keys p "physical_format" (by decide) (by decide)
    simp [lookup_append, h1, h2, h3, h4, h5, h6, h7]
  · intro hb
    have h1 : (amazonBase p pf).lookup "edition" = none := rfl
    have h2 := offerSummarySeg_keys p os hos "edition" (by decide)
    have h3 := dateSeg_keys p "edition" (by decide)
    have h4 := bindingSeg_keys p "edition" (by decide)
    have h5 : (editionSeg p).lookup "edition" = none := by
      unfold editionSeg; rw [hb]; rfl
    have h6 := publisherSeg_keys p "edition" (by decide)
    have h7 := isbnSeg_keys p "edition" (by decide) (by decide)
    simp [lookup_append, h1, h2, h3, h4, h5, h6, h7]
  · intro hb
    have h1 : (amazonBase p pf).lookup "publishers" = none := rfl
    have h2 := offerSummarySeg_keys p os hos "publishers" (by decide)
    have h3 := dateSeg_keys p "publishers" (by decide)
    have h4 := bindingSeg_keys p "publishers" (by decide)
    have h5 := editionSeg_keys p "publishers" (by decide)
    have h6 : (publisherSeg p).lookup "publishers" = none := by
      unfold publisherSeg; rw [hb]; rfl
    have h7 := isbnSeg_keys p "publishers" (by decide) (by decide)
    simp [lookup_append, h1, h2, h3, h4, h5, h6, h7]
  · intro hb
    have h1 : (amazonBase p pf).lookup "publish_date" = none := rfl
    have h2 := offerSummarySeg_keys p os hos "publish_date" (by decide)
    have h3 : (dateSeg p).lookup "publish_date" = none := by
      unfold dateSeg; rw [hb]; rfl
    have h4 := bindingSeg_keys p "publish_date" (by decide)
    have h5 := editionSeg_keys p "publish_date" (by decide)
    have h6 := publisherSeg_keys p "publish_date" (by decide)
    have h7 := isbnSeg_keys p "publish_date" (by decide) (by decide)
    simp [lookup_append, h1, h2, h3, h4, h5, h6, h7]
  · intro hb
    have h1 : (amazonBase p pf).lookup "offer_summary" = none := rfl
    have h2 : os = [] := by
      unfold offerSummarySeg at hos
      rw [hb] at hos
      exact (Option.some.inj hos).symm
    have h3 := dateSeg_keys p "offer_summary" (by decide)
    have h4 := bindingSeg_keys p "offer_summary" (by decide)
    have h5 := editionSeg_keys p "offer_summary" (by decide)
    have h6 := publisherSeg_keys p "offer_summary" (by decide)
    have h7 := isbnSeg_keys p "offer_summary" (by decide) (by decide)
    simp [lookup_append, h1, h2, h3, h4, h5, h6, h7]
  · intro hb
    have hseg : isbnSeg p = [] := by unfold isbnSeg; rw [hb]; rfl
    constructor
    · have h1 : (amazonBase p pf).lookup "isbn_10" = none := rfl
      have h2 := offerSummarySeg_keys p os hos "isbn_10" (by decide)
      have h3 := dateSeg_keys p "isbn_10" (by decide)
      have h4 := bindingSeg_keys p "isbn_10" (by decide)
      have h5 := editionSeg_keys p "isbn_10" (by decide)
      have h6 := publisherSeg_keys p "isbn_10" (by decide)
      simp [lookup_append, h1, h2, h3, h4, h5, h6, hseg]
    · have h1 : (amazonBase p pf).lookup "isbn_13" = none := rfl
      have h2 := offerSummarySeg_keys p os hos "isbn_13" (by decide)
      have h3 := dateSeg_keys p "isbn_13" (by decide)
      have h4 := bindingSeg_keys p "isbn_13" (by decide)
      have h5 := editionSeg_keys p "isbn_13" (by decide)
      have h6 := publisherSeg_keys p "isbn_13" (by decide)
      simp [lookup_append, h1, h2, h3, h4, h5, h6, hseg]

/-- Witness for the amended C7 at the base product, whose optional
attributes are all absent. -/
theorem amazon_optional_key_omission_witness :
    (((_serialize_amazon_product baseProduct).getD []).lookup "price").isSome = true ∧
    (((_serialize_amazon_product baseProduct).getD []).lookup "price_amt").isSome = true ∧
    (((_serialize_amazon_product baseProduct).getD []).lookup "qlt").isSome = true ∧
    (((_serialize_amazon_product baseProduct).getD []).lookup "number_of_pages").isSome = true ∧
    (((_serialize_amazon_product baseProduct).getD []).lookup "cover").isSome = true ∧
    (((_serialize_amazon_product baseProduct).getD []).lookup "product_group").isSome = true ∧
    (pyTruthy baseProduct.binding = false →
      ((_serialize_amazon_product baseProduct).getD []).lookup "physical_format" = none) ∧
    (pyTruthy baseProduct.edition = false →
      ((_serialize_amazon_product baseProduct).getD []).lookup "edition" = none) ∧
    (pyTruthy baseProduct.publisher = false →
      ((_serialize_amazon_product baseProduct).getD []).lookup "publishers" = none) ∧
    (baseProduct.publication_date = none →
      ((_serialize_amazon_product baseProduct).getD []).lookup "publish_date" = none) ∧
    (baseProduct.offerSummaryPresent = false →
      ((_serialize_amazon_product baseProduct).getD []).lookup "offer_summary" = none) ∧
    (pyTruthy baseProduct.isbn = false →
      ((_serialize_amazon_product baseProduct).getD []).lookup "isbn_10" = none ∧
      ((_serialize_amazon_product baseProduct).getD []).lookup "isbn_13" = none) :=
  amazon_optional_key_omission baseProduct
    ((_serialize_amazon_product baseProduct).getD []) rfl

/-- C8 counterexample: a product carrying a title whose raw response has
an OfferSummary element but no TotalNew count makes the serializer raise
(`int(None)`), so normalization does not succeed on every record with
absent optional fields. -/
theorem amazon_serializer_raises_cex :
    ({ baseProduct with offerSummaryPresent := true } : AmazonProduct).title =
      "Foo" ∧
    _serialize_amazon_product { baseProduct with offerSummaryPresent := true } =
      none := ⟨rfl, rfl⟩

theorem priceFields_isSome (used new : Option String)
    (hu : pyTruthy used = true → (pyInt used).isSome = true)
    (hn : pyTruthy new = true → (pyInt new).isSome = true) :
    (priceFields used new).isSome = true := by
  unfold priceFields amazonPriceSelect
  cases hut : pyTruthy used <;> cases hnt : pyTruthy new
  · simp [hut, hnt, pyTruthy]
  · obtain ⟨c, hc⟩ := Option.isSome_iff_exists.mp (hn hnt)
    simp [hut, hnt, hc]
  · obtain ⟨c, hc⟩ := Option.isSome_iff_exists.mp (hu hut)
    simp [hut, hnt, hc]
  · obtain ⟨cu, hcu⟩ := Option.isSome_iff_exists.mp (hu hut)
    obtain ⟨cn, hcn⟩ := Option.isSome_iff_exists.mp (hn hnt)
    simp only [hut, hnt, hcu, hcn, Bool.and_self]
    by_cases hlt : cu < cn
    · simp [hlt, hut, hcu]
    · simp [hlt, hnt, hcn]

/-- C8 as amended: the serializer succeeds on every record carrying a
title whose raw response has no OfferSummary element and whose price
amounts, when present, are numeric — whatever other optional fields
(publication date, binding, edition, publisher, isbn, pages, cover) are
absent; with an OfferSummary element present the total counts must be
present and numeric as well, or the serializer raises. -/
theorem amazon_serializer_total_on_absent_optionals (p : AmazonProduct)
    (hos : p.offerSummaryPresent = false)
    (hu : pyTruthy p.lowestUsedPrice = true → (pyInt p.lowestUsedPrice).isSome = true)
    (hn : pyTruthy p.lowestNewPrice = true → (pyInt p.lowestNewPrice).isSome = true) :
    (_serialize_amazon_product p).isSome = true := by
  obtain ⟨pf, hpf⟩ :=
    Option.isSome_iff_exists.mp (priceFields_isSome _ _ hu hn)
  have hseg : offerSummarySeg p = some [] := by
    unfold offerSummarySeg; rw [hos]; rfl
  simp [_serialize_amazon_product, hpf, hseg]

/-- Witness for the amended C8 at the base product. -/
theorem amazon_serializer_total_on_absent_optionals_witness :
    (_serialize_amazon_product baseProduct).isSome = true :=
  amazon_serializer_total_on_absent_optionals baseProduct rfl
    (by decide) (by decide)

/-- C9 counterexample: two spellings of the same ISBN that normalize to
the same canonical form ("0-14-032872-6" and "0140328726") nevertheless
produce two underlying fetches — the cache key is built from the raw
identifier before normalization, which only happens inside the fetch —
even though both lookups return the same metadata one second apart. -/
theorem amazon_cache_key_uses_raw_id_cex :
    normalize_isbn "0-14-032872-6" = some "0140328726" ∧
    normalize_isbn "0140328726" = some "0140328726" ∧
    c9run.1 = c9run.2.1 ∧ c9run.1.isSome = true ∧ c9run.2.2 = 2 :=
  ⟨rfl, rfl, rfl, rfl, rfl⟩

/-- C9 as amended: the identifier is normalized inside
`_get_amazon_metadata`, after the cache key has been built from the raw
argument tuple, so two distinct raw spellings occupy two distinct cache
entries and each triggers its own underlying fetch, even when the
normalized lookups return the very same metadata. -/
theorem amazon_normalization_after_key
    (api : Option String → Except PyExc (List AmazonProduct))
    (id1 id2 : String) (d : AMeta) (now1 now2 : Nat)
    (h1 : pyTruthyS id1 = true) (h2 : pyTruthyS id2 = true)
    (hne : id1 ≠ id2)
    (hf1 : _get_amazon_metadata api id1 "isbn" = Except.ok (some d))
    (hf2 : _get_amazon_metadata api id2 "isbn" = Except.ok (some d)) :
    amazonTwoLookups api id1 id2 now1 now2 = (some d, some d, 2) := by
  have hkey : (((id2, "isbn") : AmazonKey) == ((id1, "isbn") : AmazonKey)) = false :=
    beq_eq_false_iff_ne.mpr (by simp [Ne.symm hne])
  simp [amazonTwoLookups, get_amazon_metadata, h1, h2,
    cached_get_amazon_metadata, memoCall, memoLookup, memoUpdate, emptyMemo,
    hf1, hf2, List.lookup, hkey]

/-- Witness for the amended C9 at two concrete distinct raw identifiers
served by an API that always returns the base product. -/
theorem amazon_normalization_after_key_witness :
    amazonTwoLookups (fun _ => Except.ok [baseProduct])
        "1111111111" "2222222222" 0 1 =
      (some ((_serialize_amazon_product baseProduct).getD []),
       some ((_serialize_amazon_product baseProduct).getD []), 2) :=
  amazon_normalization_after_key (fun _ => Except.ok [baseProduct])
    "1111111111" "2222222222" ((_serialize_amazon_product baseProduct).getD [])
    0 1 rfl rfl (by decide) rfl rfl

/-- C10 counterexample: a vendor-fetch failure that is not a
`SearchException` — for instance a network error surfacing while the
search results are iterated — propagates out of `search_amazon` as an
uncaught fault instead of becoming a structured error payload. -/
theorem search_amazon_propagates_cex :
    search_amazon (Except.error PyExc.otherException) =
      Except.error PyExc.otherException ∧
    search_amazon (Except.error PyExc.otherException) ≠
      Except.ok (SearchData.errorPayload "no results") :=
  ⟨rfl, fun h => by cases h⟩

/-- C10 as amended: the identifier-lookup paths convert every fetch
failure into "no metadata" — `get_amazon_metadata` returns null for an
always-failing API, and `get_betterworldbooks_metadata` returns the empty
dict when the HTTP error body cannot be parsed — and the search path
converts a `SearchException` into the structured "no results" payload;
but any other exception class propagates uncaught out of the search
path. -/
theorem vendor_failures_contained
    (api : Option String → Except PyExc (List AmazonProduct))
    (id_ id_type : String) (now : Nat)
    (isbn s : String) (o : String → BwbOutcome) (e : PyExc)
    (hapi : ∀ x, api x = Except.error PyExc.otherException)
    (hs : normalize_isbn isbn = some s) (hst : pyTruthyS s = true)
    (ho : o s = BwbOutcome.httpErrorBadBody)
    (he : e ≠ PyExc.searchException) :
    (get_amazon_metadata api id_ id_type now emptyMemo).1 = none ∧
    get_betterworldbooks_metadata isbn o = some [] ∧
    search_amazon (Except.error PyExc.searchException) =
      Except.ok (SearchData.errorPayload "no results") ∧
    search_amazon (Except.error e) = Except.error e := by
  refine ⟨?_, ?_, rfl, ?_⟩
  · have hg : _get_amazon_metadata api id_ id_type = Except.ok none := by
      unfold _get_amazon_metadata
      simp [hapi]
    cases hid : pyTruthyS id_
    · simp [get_amazon_metadata, hid]
    · simp [get_amazon_metadata, hid, cached_get_amazon_metadata, memoCall,
        memoLookup, memoUpdate, emptyMemo, hg, List.lookup]
  · simp [get_betterworldbooks_metadata, hs, hst, ho,
      _get_betterworldbooks_metadata]
  · cases e
    · exact absurd rfl he
    · rfl

/-- Witness for the amended C10 at an always-failing API, a concrete
ISBN whose fetch yields an unparseable HTTP error body, and the
non-search exception class. -/
theorem vendor_failures_contained_witness :
    (get_amazon_metadata (fun _ => Except.error PyExc.otherException)
        "0140328726" "isbn" 0 emptyMemo).1 = none ∧
    get_betterworldbooks_metadata "0140328726"
        (fun _ => BwbOutcome.httpErrorBadBody) = some [] ∧
    search_amazon (Except.error PyExc.searchException) =
      Except.ok (SearchData.errorPayload "no results") ∧
    search_amazon (Except.error PyExc.otherException) =
      Except.error PyExc.otherException :=
  vendor_failures_contained (fun _ => Except.error PyExc.otherException)
    "0140328726" "isbn" 0 "0140328726" "0140328726"
    (fun _ => BwbOutcome.httpErrorBadBody) PyExc.otherException
    (fun _ => rfl) rfl rfl rfl (by decide)

end Vendors
